import Mathlib

/-!
Shallow embedding of `src/Script.js` (profit/loss and trade-charge
calculator).  JavaScript numbers are modelled by `JSNum`: a finite value is
an exact rational, and the special values `NaN`, `Infinity` and `-Infinity`
are explicit constructors.  Finite arithmetic is exact (the specification
describes the charge formulas at the exact, unrounded level); the
comparison, propagation and rounding behaviour of the special values
follows JavaScript semantics, which is what the validation logic of
`calculateProfitLoss` depends on.
-/

/-- A JavaScript number: an exact finite rational, or one of the three
special values `NaN`, `Infinity`, `-Infinity`. -/
inductive JSNum where
  | num (q : ℚ)
  | nan
  | inf
  | ninf
deriving DecidableEq, Repr

namespace JSNum

/-- JavaScript multiplication `a * b` on `JSNum`. -/
def mul : JSNum → JSNum → JSNum
  | nan, _ => nan
  | _, nan => nan
  | num a, num b => num (a * b)
  | inf, inf => inf
  | inf, ninf => ninf
  | ninf, inf => ninf
  | ninf, ninf => inf
  | inf, num b => if 0 < b then inf else if b < 0 then ninf else nan
  | num a, inf => if 0 < a then inf else if a < 0 then ninf else nan
  | ninf, num b => if 0 < b then ninf else if b < 0 then inf else nan
  | num a, ninf => if 0 < a then ninf else if a < 0 then inf else nan

/-- JavaScript addition `a + b` on `JSNum`. -/
def add : JSNum → JSNum → JSNum
  | nan, _ => nan
  | _, nan => nan
  | num a, num b => num (a + b)
  | inf, ninf => nan
  | ninf, inf => nan
  | inf, _ => inf
  | _, inf => inf
  | ninf, _ => ninf
  | _, ninf => ninf

/-- JavaScript negation `-a` on `JSNum`. -/
def neg : JSNum → JSNum
  | num a => num (-a)
  | nan => nan
  | inf => ninf
  | ninf => inf

/-- JavaScript subtraction `a - b` on `JSNum`. -/
def sub (a b : JSNum) : JSNum := add a (neg b)

/-- JavaScript division `a / b` on `JSNum` (rationals have no signed zero,
so a positive value divided by zero yields `Infinity`). -/
def div : JSNum → JSNum → JSNum
  | nan, _ => nan
  | _, nan => nan
  | num a, num b =>
      if b = 0 then (if a = 0 then nan else if 0 < a then inf else ninf)
      else num (a / b)
  | inf, inf => nan
  | inf, ninf => nan
  | ninf, inf => nan
  | ninf, ninf => nan
  | inf, num b => if 0 ≤ b then inf else ninf
  | ninf, num b => if 0 ≤ b then ninf else inf
  | num _, inf => num 0
  | num _, ninf => num 0

/-- JavaScript comparison `a <= b` (any comparison with `NaN` is false). -/
def le : JSNum → JSNum → Bool
  | nan, _ => false
  | _, nan => false
  | ninf, _ => true
  | _, inf => true
  | inf, _ => false
  | _, ninf => false
  | num a, num b => decide (a ≤ b)

/-- JavaScript comparison `a < b` (any comparison with `NaN` is false). -/
def lt : JSNum → JSNum → Bool
  | nan, _ => false
  | _, nan => false
  | inf, _ => false
  | _, ninf => false
  | ninf, _ => true
  | _, inf => true
  | num a, num b => decide (a < b)

/-- JavaScript strict equality `a === b` (`NaN === NaN` is false). -/
def eqb : JSNum → JSNum → Bool
  | nan, _ => false
  | _, nan => false
  | a, b => decide (a = b)

/-- JavaScript `isNaN`. -/
def isNaN : JSNum → Bool
  | nan => true
  | _ => false

/-- JavaScript `isFinite`. -/
def isFinite : JSNum → Bool
  | num _ => true
  | _ => false

/-- JavaScript `Math.round` (round half toward positive infinity);
special values are returned unchanged. -/
def round : JSNum → JSNum
  | num q => num ((⌊q + 1/2⌋ : ℤ) : ℚ)
  | x => x

end JSNum

/-- `String.prototype.toUpperCase()` for the ASCII strings this program
compares against. -/
def toUpperCase (s : String) : String := ⟨s.data.map Char.toUpper⟩

/-- `const TAX_GST = 0.18` (Script.js line 1). -/
def TAX_GST : ℚ := 18 / 100

/-- `const RATE_SEBI_EXCH = (0.0001 + 0.00307) / 100` (Script.js line 3);
declared in the source but unused by `calculateTradeCharges`. -/
def RATE_SEBI_EXCH : ℚ := (1 / 10000 + 307 / 100000) / 100

/-- `const RATE_BROKERAGE_DELIVERY = 0.000704847026178763` (Script.js line 4). -/
def RATE_BROKERAGE_DELIVERY : ℚ := 704847026178763 / 1000000000000000000

/-- `const MIN_BROKERAGE = 20` (Script.js line 5); declared in the source
but never used by any computation. -/
def MIN_BROKERAGE : ℚ := 20

/-- The object returned by `calculateTradeCharges`: the rounded display
fields, the `qty` echo, the two retained precise values
(`_originalTradeValue`, `_originalTotalCharges`), and additionally every
precise intermediate charge of the function body (the `exact…` fields),
exposed so the specification's statements about the unrounded charges can
be expressed. -/
structure ChargeResult where
  tradeValue : JSNum
  stt : JSNum
  sebiExchangeCharges : JSNum
  stampDuty : JSNum
  totalBrokerage : JSNum
  totalCharges : JSNum
  qty : JSNum
  originalTradeValue : JSNum
  originalTotalCharges : JSNum
  exactBrokerageBase : JSNum
  exactBrokerageGST : JSNum
  exactTotalBrokerage : JSNum
  exactStt : JSNum
  exactSebiTurnover : JSNum
  exactExchangeCharges : JSNum
  exactSebiExchangeCharges : JSNum
  exactStampDuty : JSNum
deriving DecidableEq, Repr

/-- `calculateTradeCharges(qty, price, action, segment)` of Script.js
lines 16-81, translated clause by clause.  The source binds
`isDelivery = segment.toUpperCase() === 'ROLLING T1'`; here the
comparison `segmentUpper = "ROLLING T1"` is written out at each use. -/
def calculateTradeCharges (qty price : JSNum) (action segment : String) :
    ChargeResult :=
  let tradeValue := JSNum.mul qty price
  let actionUpper := toUpperCase action
  let segmentUpper := toUpperCase segment
  let brokerageBase :=
    if segmentUpper = "ROLLING T1" then
      JSNum.mul tradeValue (JSNum.num RATE_BROKERAGE_DELIVERY)
    else
      JSNum.mul tradeValue (JSNum.num (7 / 100000))
  let brokerageGST := JSNum.mul brokerageBase (JSNum.num TAX_GST)
  let totalBrokerage := JSNum.add brokerageBase brokerageGST
  let stt :=
    if segmentUpper = "F&O" ∧ actionUpper = "SELL" then
      JSNum.mul tradeValue (JSNum.num (2 / 10000))
    else if segmentUpper = "ROLLING T1" then
      JSNum.mul tradeValue (JSNum.num (1 / 1000))
    else if actionUpper = "SELL" then
      JSNum.mul tradeValue (JSNum.num (25 / 100000))
    else JSNum.num 0
  let sebiTurnover := JSNum.mul tradeValue (JSNum.num (1 / 1000000))
  let exchangeCharges :=
    if segmentUpper = "F&O" then JSNum.mul tradeValue (JSNum.num (183 / 10000000))
    else JSNum.mul tradeValue (JSNum.num (307 / 10000000))
  let sebiExchangeCharges := JSNum.add sebiTurnover exchangeCharges
  let stampDuty :=
    if segmentUpper = "F&O" ∧ actionUpper = "BUY" then
      JSNum.mul tradeValue (JSNum.num (2 / 100000))
    else if segmentUpper = "ROLLING T1" then
      (if actionUpper = "BUY" then JSNum.mul tradeValue (JSNum.num (15 / 100000))
       else JSNum.num 0)
    else
      (if actionUpper = "BUY" then JSNum.mul tradeValue (JSNum.num (3 / 100000))
       else JSNum.num 0)
  let totalCharges :=
    JSNum.add (JSNum.add (JSNum.add stt sebiExchangeCharges) stampDuty)
      totalBrokerage
  { tradeValue := JSNum.round tradeValue
    stt := JSNum.round stt
    sebiExchangeCharges := JSNum.round sebiExchangeCharges
    stampDuty := JSNum.round stampDuty
    totalBrokerage := JSNum.round totalBrokerage
    totalCharges := JSNum.round totalCharges
    qty := qty
    originalTradeValue := tradeValue
    originalTotalCharges := totalCharges
    exactBrokerageBase := brokerageBase
    exactBrokerageGST := brokerageGST
    exactTotalBrokerage := totalBrokerage
    exactStt := stt
    exactSebiTurnover := sebiTurnover
    exactExchangeCharges := exchangeCharges
    exactSebiExchangeCharges := sebiExchangeCharges
    exactStampDuty := stampDuty }

/-- The profit/loss summary assembled by `calculateProfitLoss`
(Script.js lines 148-191). -/
structure PLResult where
  buyCharges : ChargeResult
  sellCharges : ChargeResult
  grossProfit : JSNum
  totalCharges : JSNum
  netProfitLoss : JSNum
  breakEvenPrice : JSNum
  loadedRateNA : Bool
deriving DecidableEq, Repr

/-- Outcome of one run of `calculateProfitLoss`: the first validation
failure (invalid quantities/prices, Script.js lines 132-139), the
quantity-mismatch failure (lines 140-146), or a complete result. -/
inductive PLOutcome where
  | invalidInput
  | quantityMismatch
  | result (r : PLResult)
deriving DecidableEq, Repr

/-- Whether an outcome is a complete result. -/
def PLOutcome.isResult : PLOutcome → Bool
  | result _ => true
  | _ => false

/-- The body of `calculateProfitLoss` from the point where the six input
values have been read (Script.js lines 132-191): validation, the
quantity-mismatch check, per-leg charge calculation, and the P&L /
break-even arithmetic, translated line by line. -/
def profitLossCore (buyQty buyPrice : JSNum) (buySegment : String)
    (sellQty sellPrice : JSNum) (sellSegment : String) : PLOutcome :=
  if JSNum.le buyQty (JSNum.num 0) || JSNum.le buyPrice (JSNum.num 0) ||
      JSNum.le sellQty (JSNum.num 0) || JSNum.le sellPrice (JSNum.num 0) ||
      JSNum.isNaN buyQty || JSNum.isNaN buyPrice then
    PLOutcome.invalidInput
  else if !(JSNum.eqb buyQty sellQty) then
    PLOutcome.quantityMismatch
  else
    let buyCharges := calculateTradeCharges buyQty buyPrice "BUY" buySegment
    let sellChargesActual :=
      calculateTradeCharges sellQty sellPrice "SELL" sellSegment
    let grossProfit :=
      JSNum.sub (JSNum.mul sellQty sellPrice) (JSNum.mul buyQty buyPrice)
    let totalCharges :=
      JSNum.add buyCharges.originalTotalCharges
        sellChargesActual.originalTotalCharges
    let netProfitLoss := JSNum.sub grossProfit totalCharges
    let totalBuyTradeValue := buyCharges.originalTradeValue
    let sellPriceRequiredToBreakEven :=
      JSNum.div (JSNum.add totalBuyTradeValue totalCharges)
        (if JSNum.lt (JSNum.num 0) buyQty then buyQty else JSNum.num 1)
    PLOutcome.result
      { buyCharges := buyCharges
        sellCharges := sellChargesActual
        grossProfit := grossProfit
        totalCharges := totalCharges
        netProfitLoss := netProfitLoss
        breakEvenPrice := sellPriceRequiredToBreakEven
        loadedRateNA :=
          !(JSNum.isFinite sellPriceRequiredToBreakEven) ||
            JSNum.le buyQty (JSNum.num 0) }

/-- `calculateProfitLoss()` of Script.js lines 115-198, as a function of
the six caller-supplied field values.  Before reading any input the
source overwrites the sell-side quantity and segment fields with the
buy-side values (lines 120-121), so the values actually read for
`sellQty` and `sellSegment` are the buy-side ones; the caller-supplied
`sellQty` and `sellSegment` arguments are discarded. -/
def calculateProfitLoss (buyQty buyPrice : JSNum) (buySegment : String)
    (_sellQty sellPrice : JSNum) (_sellSegment : String) : PLOutcome :=
  profitLossCore buyQty buyPrice buySegment buyQty sellPrice buySegment

/-!
Rational rate tables read off the branch structure of
`calculateTradeCharges`, used to state the helper lemmas below.  The
string arguments are the already upper-cased action and segment.
-/

/-- STT rate selected by Script.js lines 36-44. -/
def sttRate (actionUpper segmentUpper : String) : ℚ :=
  if segmentUpper = "F&O" ∧ actionUpper = "SELL" then 2 / 10000
  else if segmentUpper = "ROLLING T1" then 1 / 1000
  else if actionUpper = "SELL" then 25 / 100000
  else 0

/-- Stamp duty rate selected by Script.js lines 54-62. -/
def stampDutyRate (actionUpper segmentUpper : String) : ℚ :=
  if segmentUpper = "F&O" ∧ actionUpper = "BUY" then 2 / 100000
  else if segmentUpper = "ROLLING T1" then
    (if actionUpper = "BUY" then 15 / 100000 else 0)
  else
    (if actionUpper = "BUY" then 3 / 100000 else 0)

/-- Brokerage base rate selected by Script.js lines 23-27. -/
def brokerageRate (segmentUpper : String) : ℚ :=
  if segmentUpper = "ROLLING T1" then RATE_BROKERAGE_DELIVERY else 7 / 100000

/-- Exchange transaction charge rate selected by Script.js line 50. -/
def exchangeRate (segmentUpper : String) : ℚ :=
  if segmentUpper = "F&O" then 183 / 10000000 else 307 / 10000000

lemma sttRate_nonneg (a s : String) : 0 ≤ sttRate a s := by
  unfold sttRate; split_ifs <;> norm_num

lemma stampDutyRate_nonneg (a s : String) : 0 ≤ stampDutyRate a s := by
  unfold stampDutyRate; split_ifs <;> norm_num

lemma brokerageRate_nonneg (s : String) : 0 ≤ brokerageRate s := by
  unfold brokerageRate RATE_BROKERAGE_DELIVERY; split_ifs <;> norm_num

lemma exchangeRate_nonneg (s : String) : 0 ≤ exchangeRate s := by
  unfold exchangeRate; split_ifs <;> norm_num

/-!
Helper lemmas: on finite inputs every precise intermediate of
`calculateTradeCharges` is the finite rational given by the rate tables.
-/

lemma originalTradeValue_eq (q p : ℚ) (a s : String) :
    (calculateTradeCharges (JSNum.num q) (JSNum.num p) a s).originalTradeValue =
      JSNum.num (q * p) := by
  simp [calculateTradeCharges, JSNum.mul]

lemma exactBrokerageBase_eq (q p : ℚ) (a s : String) :
    (calculateTradeCharges (JSNum.num q) (JSNum.num p) a s).exactBrokerageBase =
      JSNum.num (q * p * brokerageRate (toUpperCase s)) := by
  simp only [calculateTradeCharges, brokerageRate, JSNum.mul]
  split_ifs <;> simp [JSNum.mul]

lemma exactBrokerageGST_eq (q p : ℚ) (a s : String) :
    (calculateTradeCharges (JSNum.num q) (JSNum.num p) a s).exactBrokerageGST =
      JSNum.num (q * p * brokerageRate (toUpperCase s) * TAX_GST) := by
  simp only [calculateTradeCharges, brokerageRate, JSNum.mul]
  split_ifs <;> simp [JSNum.mul]

lemma exactTotalBrokerage_eq (q p : ℚ) (a s : String) :
    (calculateTradeCharges (JSNum.num q) (JSNum.num p) a s).exactTotalBrokerage =
      JSNum.num (q * p * brokerageRate (toUpperCase s) +
        q * p * brokerageRate (toUpperCase s) * TAX_GST) := by
  simp only [calculateTradeCharges, brokerageRate, JSNum.mul, JSNum.add]
  split_ifs <;> simp [JSNum.mul, JSNum.add]

lemma exactStt_eq (q p : ℚ) (a s : String) :
    (calculateTradeCharges (JSNum.num q) (JSNum.num p) a s).exactStt =
      JSNum.num (q * p * sttRate (toUpperCase a) (toUpperCase s)) := by
  simp only [calculateTradeCharges, sttRate, JSNum.mul]
  split_ifs <;> simp [JSNum.mul]

lemma exactSebiTurnover_eq (q p : ℚ) (a s : String) :
    (calculateTradeCharges (JSNum.num q) (JSNum.num p) a s).exactSebiTurnover =
      JSNum.num (q * p * (1 / 1000000)) := by
  simp [calculateTradeCharges, JSNum.mul]

lemma exactExchangeCharges_eq (q p : ℚ) (a s : String) :
    (calculateTradeCharges (JSNum.num q) (JSNum.num p) a s).exactExchangeCharges =
      JSNum.num (q * p * exchangeRate (toUpperCase s)) := by
  simp only [calculateTradeCharges, exchangeRate, JSNum.mul]
  split_ifs <;> simp [JSNum.mul]

lemma exactSebiExchangeCharges_eq (q p : ℚ) (a s : String) :
    (calculateTradeCharges (JSNum.num q) (JSNum.num p) a s).exactSebiExchangeCharges =
      JSNum.num (q * p * (1 / 1000000) + q * p * exchangeRate (toUpperCase s)) := by
  simp only [calculateTradeCharges, exchangeRate, JSNum.mul, JSNum.add]
  split_ifs <;> simp [JSNum.mul, JSNum.add]

lemma exactStampDuty_eq (q p : ℚ) (a s : String) :
    (calculateTradeCharges (JSNum.num q) (JSNum.num p) a s).exactStampDuty =
      JSNum.num (q * p * stampDutyRate (toUpperCase a) (toUpperCase s)) := by
  simp only [calculateTradeCharges, stampDutyRate, JSNum.mul]
  split_ifs <;> simp [JSNum.mul]

lemma originalTotalCharges_eq (q p : ℚ) (a s : String) :
    (calculateTradeCharges (JSNum.num q) (JSNum.num p) a s).originalTotalCharges =
      JSNum.num (q * p * sttRate (toUpperCase a) (toUpperCase s) +
        (q * p * (1 / 1000000) + q * p * exchangeRate (toUpperCase s)) +
        q * p * stampDutyRate (toUpperCase a) (toUpperCase s) +
        (q * p * brokerageRate (toUpperCase s) +
          q * p * brokerageRate (toUpperCase s) * TAX_GST)) := by
  simp only [calculateTradeCharges, sttRate, stampDutyRate, brokerageRate,
    exchangeRate, JSNum.mul, JSNum.add]
  split_ifs <;> simp [JSNum.mul, JSNum.add]

lemma upper_BUY : toUpperCase "BUY" = "BUY" := by decide

lemma upper_SELL : toUpperCase "SELL" = "SELL" := by decide

lemma upper_RT1 : toUpperCase "ROLLING T1" = "ROLLING T1" := by decide

lemma upper_FO : toUpperCase "F&O" = "F&O" := by decide

lemma upper_INTRADAY : toUpperCase "INTRADAY" = "INTRADAY" := by decide

/-- C2: for every qty>0 and price>0, the STT charge of
`calculateTradeCharges` is 0.0002×tradeValue for an F&O SELL;
else 0.001×tradeValue in the delivery segment ("ROLLING T1",
case-insensitive) for either action; else 0.00025×tradeValue for a SELL
(non-delivery, non-F&O); else 0 — in particular an F&O BUY incurs zero
STT. -/
theorem stt_schedule (q p : ℚ) (hq : 0 < q) (hp : 0 < p) (a s : String) :
    ((toUpperCase s = "F&O" ∧ toUpperCase a = "SELL") →
      (calculateTradeCharges (JSNum.num q) (JSNum.num p) a s).exactStt =
        JSNum.num (q * p * (2 / 10000))) ∧
    (toUpperCase s = "ROLLING T1" →
      (calculateTradeCharges (JSNum.num q) (JSNum.num p) a s).exactStt =
        JSNum.num (q * p * (1 / 1000))) ∧
    (toUpperCase s ≠ "F&O" → toUpperCase s ≠ "ROLLING T1" →
      toUpperCase a = "SELL" →
      (calculateTradeCharges (JSNum.num q) (JSNum.num p) a s).exactStt =
        JSNum.num (q * p * (25 / 100000))) ∧
    (toUpperCase s ≠ "ROLLING T1" → toUpperCase a ≠ "SELL" →
      (calculateTradeCharges (JSNum.num q) (JSNum.num p) a s).exactStt =
        JSNum.num 0) ∧
    ((toUpperCase s = "F&O" ∧ toUpperCase a = "BUY") →
      (calculateTradeCharges (JSNum.num q) (JSNum.num p) a s).exactStt =
        JSNum.num 0) := by
  refine ⟨?_, ?_, ?_, ?_, ?_⟩
  · rintro ⟨hs, ha⟩
    rw [exactStt_eq, hs, ha]
    simp [sttRate]
  · intro hs
    rw [exactStt_eq, hs]
    simp [sttRate]
  · intro hs1 hs2 ha
    rw [exactStt_eq, ha]
    simp [sttRate, hs1, hs2]
  · intro hs2 ha
    rw [exactStt_eq]
    simp [sttRate, hs2, ha]
  · rintro ⟨hs, ha⟩
    rw [exactStt_eq, hs, ha]
    simp [sttRate]

/-- Witness for C2: a lowercase F&O sell leg at qty 2, price 3. -/
theorem stt_schedule_witness :
    (calculateTradeCharges (JSNum.num 2) (JSNum.num 3) "sell" "f&o").exactStt =
      JSNum.num (2 * 3 * (2 / 10000)) :=
  (stt_schedule 2 3 (by norm_num) (by norm_num) "sell" "f&o").1
    ⟨by decide, by decide⟩

/-- C3: for every qty>0 and price>0, the stamp duty of
`calculateTradeCharges` is 0.00002×tradeValue for an F&O BUY,
0.00015×tradeValue for a delivery BUY, 0.00003×tradeValue for any other
BUY, and exactly 0 for every SELL; and at equal trade value the delivery
BUY duty strictly exceeds the non-delivery BUY duty, which strictly
exceeds the F&O BUY duty. -/
theorem stampDuty_schedule (q p : ℚ) (hq : 0 < q) (hp : 0 < p)
    (a s : String) :
    (((toUpperCase s = "F&O" ∧ toUpperCase a = "BUY") →
      (calculateTradeCharges (JSNum.num q) (JSNum.num p) a s).exactStampDuty =
        JSNum.num (q * p * (2 / 100000))) ∧
    ((toUpperCase s = "ROLLING T1" ∧ toUpperCase a = "BUY") →
      (calculateTradeCharges (JSNum.num q) (JSNum.num p) a s).exactStampDuty =
        JSNum.num (q * p * (15 / 100000))) ∧
    ((toUpperCase s ≠ "F&O" ∧ toUpperCase s ≠ "ROLLING T1" ∧
        toUpperCase a = "BUY") →
      (calculateTradeCharges (JSNum.num q) (JSNum.num p) a s).exactStampDuty =
        JSNum.num (q * p * (3 / 100000))) ∧
    (toUpperCase a = "SELL" →
      (calculateTradeCharges (JSNum.num q) (JSNum.num p) a s).exactStampDuty =
        JSNum.num 0)) ∧
    ∃ dD dN dF : ℚ,
      (calculateTradeCharges (JSNum.num q) (JSNum.num p) "BUY"
        "ROLLING T1").exactStampDuty = JSNum.num dD ∧
      (calculateTradeCharges (JSNum.num q) (JSNum.num p) "BUY"
        "INTRADAY").exactStampDuty = JSNum.num dN ∧
      (calculateTradeCharges (JSNum.num q) (JSNum.num p) "BUY"
        "F&O").exactStampDuty = JSNum.num dF ∧
      dF < dN ∧ dN < dD := by
  have htv : 0 < q * p := mul_pos hq hp
  refine ⟨⟨?_, ?_, ?_, ?_⟩, ?_⟩
  · rintro ⟨hs, ha⟩
    rw [exactStampDuty_eq, hs, ha]
    simp [stampDutyRate]
  · rintro ⟨hs, ha⟩
    rw [exactStampDuty_eq, hs, ha]
    simp [stampDutyRate]
  · rintro ⟨hs1, hs2, ha⟩
    rw [exactStampDuty_eq, ha]
    simp [stampDutyRate, hs1, hs2]
  · intro ha
    rw [exactStampDuty_eq, ha]
    rcases eq_or_ne (toUpperCase s) "F&O" with hs | hs <;>
      rcases eq_or_ne (toUpperCase s) "ROLLING T1" with hs2 | hs2 <;>
      simp [stampDutyRate, hs, hs2]
  · refine ⟨q * p * (15 / 100000), q * p * (3 / 100000),
      q * p * (2 / 100000), ?_, ?_, ?_, by nlinarith, by nlinarith⟩
    · rw [exactStampDuty_eq, upper_BUY, upper_RT1]
      simp [stampDutyRate]
    · rw [exactStampDuty_eq, upper_BUY, upper_INTRADAY]
      simp [stampDutyRate]
    · rw [exactStampDuty_eq, upper_BUY, upper_FO]
      simp [stampDutyRate]

/-- Witness for C3: the lowercase delivery buy leg at qty 2, price 3. -/
theorem stampDuty_schedule_witness :
    (calculateTradeCharges (JSNum.num 2) (JSNum.num 3) "buy"
      "rolling t1").exactStampDuty = JSNum.num (2 * 3 * (15 / 100000)) :=
  (stampDuty_schedule 2 3 (by norm_num) (by norm_num) "buy"
    "rolling t1").1.2.1 ⟨by decide, by decide⟩

/-- C4: for every qty>0, price>0, action and segment, the brokerage base
of `calculateTradeCharges` is tradeValue×RATE_BROKERAGE_DELIVERY in the
delivery segment and tradeValue×0.00007 otherwise, GST is 18% of the
base (TAX_GST), and the total brokerage is base plus GST. -/
theorem brokerage_schedule (q p : ℚ) (hq : 0 < q) (hp : 0 < p)
    (a s : String) :
    ∃ b : ℚ,
      (calculateTradeCharges (JSNum.num q) (JSNum.num p) a
        s).exactBrokerageBase = JSNum.num b ∧
      (toUpperCase s = "ROLLING T1" → b = q * p * RATE_BROKERAGE_DELIVERY) ∧
      (toUpperCase s ≠ "ROLLING T1" → b = q * p * (7 / 100000)) ∧
      (calculateTradeCharges (JSNum.num q) (JSNum.num p) a
        s).exactBrokerageGST = JSNum.num (b * TAX_GST) ∧
      (calculateTradeCharges (JSNum.num q) (JSNum.num p) a
        s).exactTotalBrokerage = JSNum.num (b + b * TAX_GST) := by
  refine ⟨q * p * brokerageRate (toUpperCase s),
    exactBrokerageBase_eq q p a s, ?_, ?_,
    exactBrokerageGST_eq q p a s, exactTotalBrokerage_eq q p a s⟩
  · intro hs
    rw [hs]
    simp [brokerageRate]
  · intro hs
    simp [brokerageRate, hs]

/-- Witness for C4: an intraday leg at qty 2, price 3. -/
theorem brokerage_schedule_witness :
    ∃ b : ℚ,
      (calculateTradeCharges (JSNum.num 2) (JSNum.num 3) "BUY"
        "INTRADAY").exactBrokerageBase = JSNum.num b ∧
      (toUpperCase "INTRADAY" = "ROLLING T1" →
        b = 2 * 3 * RATE_BROKERAGE_DELIVERY) ∧
      (toUpperCase "INTRADAY" ≠ "ROLLING T1" → b = 2 * 3 * (7 / 100000)) ∧
      (calculateTradeCharges (JSNum.num 2) (JSNum.num 3) "BUY"
        "INTRADAY").exactBrokerageGST = JSNum.num (b * TAX_GST) ∧
      (calculateTradeCharges (JSNum.num 2) (JSNum.num 3) "BUY"
        "INTRADAY").exactTotalBrokerage = JSNum.num (b + b * TAX_GST) :=
  brokerage_schedule 2 3 (by norm_num) (by norm_num) "BUY" "INTRADAY"

/-- C5: for every qty>0, price>0, action and segment,
`calculateTradeCharges` always adds a SEBI turnover fee of
tradeValue×0.000001 and an exchange transaction fee of
tradeValue×0.0000183 for F&O and tradeValue×0.0000307 otherwise, and the
reported sebiExchangeCharges is the sum of the two. -/
theorem sebiExchange_schedule (q p : ℚ) (hq : 0 < q) (hp : 0 < p)
    (a s : String) :
    (calculateTradeCharges (JSNum.num q) (JSNum.num p) a
      s).exactSebiTurnover = JSNum.num (q * p * (1 / 1000000)) ∧
    (toUpperCase s = "F&O" →
      (calculateTradeCharges (JSNum.num q) (JSNum.num p) a
        s).exactExchangeCharges = JSNum.num (q * p * (183 / 10000000))) ∧
    (toUpperCase s ≠ "F&O" →
      (calculateTradeCharges (JSNum.num q) (JSNum.num p) a
        s).exactExchangeCharges = JSNum.num (q * p * (307 / 10000000))) ∧
    ∃ e : ℚ,
      (calculateTradeCharges (JSNum.num q) (JSNum.num p) a
        s).exactExchangeCharges = JSNum.num e ∧
      (calculateTradeCharges (JSNum.num q) (JSNum.num p) a
        s).exactSebiExchangeCharges =
        JSNum.num (q * p * (1 / 1000000) + e) := by
  refine ⟨exactSebiTurnover_eq q p a s, ?_, ?_,
    q * p * exchangeRate (toUpperCase s), exactExchangeCharges_eq q p a s,
    exactSebiExchangeCharges_eq q p a s⟩
  · intro hs
    rw [exactExchangeCharges_eq, hs]
    simp [exchangeRate]
  · intro hs
    rw [exactExchangeCharges_eq]
    simp [exchangeRate, hs]

/-- Witness for C5: an F&O leg at qty 2, price 3. -/
theorem sebiExchange_schedule_witness :
    (calculateTradeCharges (JSNum.num 2) (JSNum.num 3) "SELL"
      "F&O").exactSebiTurnover = JSNum.num (2 * 3 * (1 / 1000000)) ∧
    (calculateTradeCharges (JSNum.num 2) (JSNum.num 3) "SELL"
      "F&O").exactExchangeCharges = JSNum.num (2 * 3 * (183 / 10000000)) :=
  ⟨(sebiExchange_schedule 2 3 (by norm_num) (by norm_num) "SELL" "F&O").1,
    (sebiExchange_schedule 2 3 (by norm_num) (by norm_num) "SELL"
      "F&O").2.1 (by decide)⟩

/-- C6: for every qty>0 and price>0, `calculateTradeCharges` sets the
retained trade value exactly to qty×price, sets the retained total
charges exactly to stt + sebiExchangeCharges + stampDuty +
totalBrokerage, and that total is nonnegative. -/
theorem totalCharges_exact (q p : ℚ) (hq : 0 < q) (hp : 0 < p)
    (a s : String) :
    (calculateTradeCharges (JSNum.num q) (JSNum.num p) a
      s).originalTradeValue = JSNum.num (q * p) ∧
    ∃ t se d bb : ℚ,
      (calculateTradeCharges (JSNum.num q) (JSNum.num p) a s).exactStt =
        JSNum.num t ∧
      (calculateTradeCharges (JSNum.num q) (JSNum.num p) a
        s).exactSebiExchangeCharges = JSNum.num se ∧
      (calculateTradeCharges (JSNum.num q) (JSNum.num p) a
        s).exactStampDuty = JSNum.num d ∧
      (calculateTradeCharges (JSNum.num q) (JSNum.num p) a
        s).exactTotalBrokerage = JSNum.num bb ∧
      (calculateTradeCharges (JSNum.num q) (JSNum.num p) a
        s).originalTotalCharges = JSNum.num (t + se + d + bb) ∧
      0 ≤ t + se + d + bb := by
  have htv : (0 : ℚ) ≤ q * p := (mul_pos hq hp).le
  have hGST : (0 : ℚ) ≤ TAX_GST := by norm_num [TAX_GST]
  refine ⟨originalTradeValue_eq q p a s,
    q * p * sttRate (toUpperCase a) (toUpperCase s),
    q * p * (1 / 1000000) + q * p * exchangeRate (toUpperCase s),
    q * p * stampDutyRate (toUpperCase a) (toUpperCase s),
    q * p * brokerageRate (toUpperCase s) +
      q * p * brokerageRate (toUpperCase s) * TAX_GST,
    exactStt_eq q p a s, exactSebiExchangeCharges_eq q p a s,
    exactStampDuty_eq q p a s, exactTotalBrokerage_eq q p a s,
    originalTotalCharges_eq q p a s, ?_⟩
  have h1 := mul_nonneg htv (sttRate_nonneg (toUpperCase a) (toUpperCase s))
  have h2 := add_nonneg (mul_nonneg htv (by norm_num : (0:ℚ) ≤ 1 / 1000000))
    (mul_nonneg htv (exchangeRate_nonneg (toUpperCase s)))
  have h3 := mul_nonneg htv
    (stampDutyRate_nonneg (toUpperCase a) (toUpperCase s))
  have h4 := mul_nonneg htv (brokerageRate_nonneg (toUpperCase s))
  have h5 := mul_nonneg h4 hGST
  linarith

/-- Witness for C6: a delivery buy leg at qty 2, price 3. -/
theorem totalCharges_exact_witness :
    (calculateTradeCharges (JSNum.num 2) (JSNum.num 3) "BUY"
      "ROLLING T1").originalTradeValue = JSNum.num (2 * 3) ∧
    ∃ t se d bb : ℚ,
      (calculateTradeCharges (JSNum.num 2) (JSNum.num 3) "BUY"
        "ROLLING T1").exactStt = JSNum.num t ∧
      (calculateTradeCharges (JSNum.num 2) (JSNum.num 3) "BUY"
        "ROLLING T1").exactSebiExchangeCharges = JSNum.num se ∧
      (calculateTradeCharges (JSNum.num 2) (JSNum.num 3) "BUY"
        "ROLLING T1").exactStampDuty = JSNum.num d ∧
      (calculateTradeCharges (JSNum.num 2) (JSNum.num 3) "BUY"
        "ROLLING T1").exactTotalBrokerage = JSNum.num bb ∧
      (calculateTradeCharges (JSNum.num 2) (JSNum.num 3) "BUY"
        "ROLLING T1").originalTotalCharges = JSNum.num (t + se + d + bb) ∧
      0 ≤ t + se + d + bb :=
  totalCharges_exact 2 3 (by norm_num) (by norm_num) "BUY" "ROLLING T1"

/-- C9: for a fixed action and segment the brokerage, STT and stamp duty
are nonnegative and exactly homogeneous in the trade value (scaling qty
or price by k>0 scales each charge by k); the total brokerage is exactly
tradeValue × rate × (1 + TAX_GST), and in particular no MIN_BROKERAGE
floor is ever applied: at qty = price = 1/100 the total brokerage is
below MIN_BROKERAGE. -/
theorem charge_homogeneity (q p k : ℚ) (hq : 0 < q) (hp : 0 < p)
    (hk : 0 < k) (a s : String) :
    ∃ b t d : ℚ,
      (calculateTradeCharges (JSNum.num q) (JSNum.num p) a
        s).exactTotalBrokerage = JSNum.num b ∧
      (calculateTradeCharges (JSNum.num q) (JSNum.num p) a s).exactStt =
        JSNum.num t ∧
      (calculateTradeCharges (JSNum.num q) (JSNum.num p) a
        s).exactStampDuty = JSNum.num d ∧
      0 ≤ b ∧ 0 ≤ t ∧ 0 ≤ d ∧
      (calculateTradeCharges (JSNum.num (k * q)) (JSNum.num p) a
        s).exactTotalBrokerage = JSNum.num (k * b) ∧
      (calculateTradeCharges (JSNum.num (k * q)) (JSNum.num p) a
        s).exactStt = JSNum.num (k * t) ∧
      (calculateTradeCharges (JSNum.num (k * q)) (JSNum.num p) a
        s).exactStampDuty = JSNum.num (k * d) ∧
      (calculateTradeCharges (JSNum.num q) (JSNum.num (k * p)) a
        s).exactTotalBrokerage = JSNum.num (k * b) ∧
      (calculateTradeCharges (JSNum.num q) (JSNum.num (k * p)) a
        s).exactStt = JSNum.num (k * t) ∧
      (calculateTradeCharges (JSNum.num q) (JSNum.num (k * p)) a
        s).exactStampDuty = JSNum.num (k * d) ∧
      b = q * p * brokerageRate (toUpperCase s) * (1 + TAX_GST) ∧
      ∃ b' : ℚ,
        (calculateTradeCharges (JSNum.num (1 / 100)) (JSNum.num (1 / 100)) a
          s).exactTotalBrokerage = JSNum.num b' ∧ b' < MIN_BROKERAGE := by
  have htv : (0 : ℚ) ≤ q * p := (mul_pos hq hp).le
  have hGST : (0 : ℚ) ≤ TAX_GST := by norm_num [TAX_GST]
  have hbr := brokerageRate_nonneg (toUpperCase s)
  refine ⟨q * p * brokerageRate (toUpperCase s) +
      q * p * brokerageRate (toUpperCase s) * TAX_GST,
    q * p * sttRate (toUpperCase a) (toUpperCase s),
    q * p * stampDutyRate (toUpperCase a) (toUpperCase s),
    exactTotalBrokerage_eq q p a s, exactStt_eq q p a s,
    exactStampDuty_eq q p a s, ?_, ?_, ?_, ?_, ?_, ?_, ?_, ?_, ?_,
    by ring, ?_⟩
  · have h4 := mul_nonneg htv hbr
    have h5 := mul_nonneg h4 hGST
    linarith
  · exact mul_nonneg htv (sttRate_nonneg (toUpperCase a) (toUpperCase s))
  · exact mul_nonneg htv
      (stampDutyRate_nonneg (toUpperCase a) (toUpperCase s))
  · simp only [exactTotalBrokerage_eq, JSNum.num.injEq]
    ring
  · simp only [exactStt_eq, JSNum.num.injEq]
    ring
  · simp only [exactStampDuty_eq, JSNum.num.injEq]
    ring
  · simp only [exactTotalBrokerage_eq, JSNum.num.injEq]
    ring
  · simp only [exactStt_eq, JSNum.num.injEq]
    ring
  · simp only [exactStampDuty_eq, JSNum.num.injEq]
    ring
  · refine ⟨(1 / 100) * (1 / 100) * brokerageRate (toUpperCase s) +
      (1 / 100) * (1 / 100) * brokerageRate (toUpperCase s) * TAX_GST,
      exactTotalBrokerage_eq (1 / 100) (1 / 100) a s, ?_⟩
    unfold brokerageRate
    split_ifs <;>
      norm_num [RATE_BROKERAGE_DELIVERY, TAX_GST, MIN_BROKERAGE]

/-- Witness for C9: buy leg in the delivery segment, qty 1, price 2,
scale factor 3. -/
theorem charge_homogeneity_witness :
    ∃ b t d : ℚ,
      (calculateTradeCharges (JSNum.num 1) (JSNum.num 2) "BUY"
        "ROLLING T1").exactTotalBrokerage = JSNum.num b ∧
      (calculateTradeCharges (JSNum.num 1) (JSNum.num 2) "BUY"
        "ROLLING T1").exactStt = JSNum.num t ∧
      (calculateTradeCharges (JSNum.num 1) (JSNum.num 2) "BUY"
        "ROLLING T1").exactStampDuty = JSNum.num d ∧
      0 ≤ b ∧ 0 ≤ t ∧ 0 ≤ d ∧
      (calculateTradeCharges (JSNum.num (3 * 1)) (JSNum.num 2) "BUY"
        "ROLLING T1").exactTotalBrokerage = JSNum.num (3 * b) ∧
      (calculateTradeCharges (JSNum.num (3 * 1)) (JSNum.num 2) "BUY"
        "ROLLING T1").exactStt = JSNum.num (3 * t) ∧
      (calculateTradeCharges (JSNum.num (3 * 1)) (JSNum.num 2) "BUY"
        "ROLLING T1").exactStampDuty = JSNum.num (3 * d) ∧
      (calculateTradeCharges (JSNum.num 1) (JSNum.num (3 * 2)) "BUY"
        "ROLLING T1").exactTotalBrokerage = JSNum.num (3 * b) ∧
      (calculateTradeCharges (JSNum.num 1) (JSNum.num (3 * 2)) "BUY"
        "ROLLING T1").exactStt = JSNum.num (3 * t) ∧
      (calculateTradeCharges (JSNum.num 1) (JSNum.num (3 * 2)) "BUY"
        "ROLLING T1").exactStampDuty = JSNum.num (3 * d) ∧
      b = 1 * 2 * brokerageRate (toUpperCase "ROLLING T1") * (1 + TAX_GST) ∧
      ∃ b' : ℚ,
        (calculateTradeCharges (JSNum.num (1 / 100)) (JSNum.num (1 / 100))
          "BUY" "ROLLING T1").exactTotalBrokerage = JSNum.num b' ∧
        b' < MIN_BROKERAGE :=
  charge_homogeneity 1 2 3 (by norm_num) (by norm_num) (by norm_num)
    "BUY" "ROLLING T1"

lemma le_num_zero_false (v : ℚ) (h : 0 < v) :
    JSNum.le (JSNum.num v) (JSNum.num 0) = false := by
  simp [JSNum.le, not_le, h]

lemma eqb_num_true (v : ℚ) : JSNum.eqb (JSNum.num v) (JSNum.num v) = true := by
  simp [JSNum.eqb]

/-- C1: for every valid input pair (finite positive quantities and
prices, equal quantities), the P&L aggregation produces a complete
result whose gross profit is the exact sellQty×sellPrice −
buyQty×buyPrice, whose total charges are the exact sum of the two legs'
retained total charges, whose net P&L is gross minus total charges, and
whose break-even price is (buy trade value + total charges)/buyQty, so
that break-even price × buyQty equals buy trade value + total charges
exactly. -/
theorem pnl_aggregation_exact (q p sp : ℚ) (hq : 0 < q) (hp : 0 < p)
    (hsp : 0 < sp) (bs ss : String) :
    ∃ (r : PLResult) (Cb Cs : ℚ),
      profitLossCore (JSNum.num q) (JSNum.num p) bs (JSNum.num q)
        (JSNum.num sp) ss = PLOutcome.result r ∧
      r.buyCharges =
        calculateTradeCharges (JSNum.num q) (JSNum.num p) "BUY" bs ∧
      r.sellCharges =
        calculateTradeCharges (JSNum.num q) (JSNum.num sp) "SELL" ss ∧
      r.buyCharges.originalTotalCharges = JSNum.num Cb ∧
      r.sellCharges.originalTotalCharges = JSNum.num Cs ∧
      r.grossProfit = JSNum.num (q * sp - q * p) ∧
      r.totalCharges = JSNum.num (Cb + Cs) ∧
      r.netProfitLoss = JSNum.num (q * sp - q * p - (Cb + Cs)) ∧
      r.buyCharges.originalTradeValue = JSNum.num (q * p) ∧
      r.breakEvenPrice = JSNum.num ((q * p + (Cb + Cs)) / q) ∧
      JSNum.mul r.breakEvenPrice (JSNum.num q) =
        JSNum.num (q * p + (Cb + Cs)) := by
  obtain ⟨Cb, hCb⟩ : ∃ Cb, (calculateTradeCharges (JSNum.num q)
      (JSNum.num p) "BUY" bs).originalTotalCharges = JSNum.num Cb :=
    ⟨_, originalTotalCharges_eq q p "BUY" bs⟩
  obtain ⟨Cs, hCs⟩ : ∃ Cs, (calculateTradeCharges (JSNum.num q)
      (JSNum.num sp) "SELL" ss).originalTotalCharges = JSNum.num Cs :=
    ⟨_, originalTotalCharges_eq q sp "SELL" ss⟩
  have hcond : (JSNum.le (JSNum.num q) (JSNum.num 0) ||
      JSNum.le (JSNum.num p) (JSNum.num 0) ||
      JSNum.le (JSNum.num q) (JSNum.num 0) ||
      JSNum.le (JSNum.num sp) (JSNum.num 0) ||
      JSNum.isNaN (JSNum.num q) || JSNum.isNaN (JSNum.num p)) = false := by
    simp [le_num_zero_false q hq, le_num_zero_false p hp,
      le_num_zero_false sp hsp, JSNum.isNaN]
  have hlt : JSNum.lt (JSNum.num 0) (JSNum.num q) = true := by
    simp [JSNum.lt, hq]
  unfold profitLossCore
  rw [if_neg (by rw [hcond]; exact Bool.false_ne_true),
    if_neg (by rw [eqb_num_true q]; simp)]
  refine ⟨_, Cb, Cs, rfl, rfl, rfl, hCb, hCs, ?_, ?_, ?_,
    originalTradeValue_eq q p "BUY" bs, ?_, ?_⟩
  · simp only [JSNum.mul, JSNum.sub, JSNum.neg, JSNum.add, JSNum.num.injEq]
    ring
  · simp only [hCb, hCs, JSNum.add]
  · simp only [hCb, hCs, JSNum.mul, JSNum.sub, JSNum.neg, JSNum.add,
      JSNum.num.injEq]
    ring
  · rw [if_pos hlt]
    simp only [originalTradeValue_eq, hCb, hCs, JSNum.add, JSNum.div,
      if_neg hq.ne']
  · rw [if_pos hlt]
    simp only [originalTradeValue_eq, hCb, hCs, JSNum.add, JSNum.div,
      if_neg hq.ne', JSNum.mul, JSNum.num.injEq]
    field_simp

/-- Witness for C1: buyQty = sellQty = 50, buyPrice = 200,
sellPrice = 210, both legs intraday. -/
theorem pnl_aggregation_exact_witness :
    ∃ (r : PLResult) (Cb Cs : ℚ),
      profitLossCore (JSNum.num 50) (JSNum.num 200) "INTRADAY"
        (JSNum.num 50) (JSNum.num 210) "INTRADAY" = PLOutcome.result r ∧
      r.buyCharges = calculateTradeCharges (JSNum.num 50) (JSNum.num 200)
        "BUY" "INTRADAY" ∧
      r.sellCharges = calculateTradeCharges (JSNum.num 50) (JSNum.num 210)
        "SELL" "INTRADAY" ∧
      r.buyCharges.originalTotalCharges = JSNum.num Cb ∧
      r.sellCharges.originalTotalCharges = JSNum.num Cs ∧
      r.grossProfit = JSNum.num (50 * 210 - 50 * 200) ∧
      r.totalCharges = JSNum.num (Cb + Cs) ∧
      r.netProfitLoss = JSNum.num (50 * 210 - 50 * 200 - (Cb + Cs)) ∧
      r.buyCharges.originalTradeValue = JSNum.num (50 * 200) ∧
      r.breakEvenPrice = JSNum.num ((50 * 200 + (Cb + Cs)) / 50) ∧
      JSNum.mul r.breakEvenPrice (JSNum.num 50) =
        JSNum.num (50 * 200 + (Cb + Cs)) :=
  pnl_aggregation_exact 50 200 210 (by norm_num) (by norm_num)
    (by norm_num) "INTRADAY" "INTRADAY"

/-- C8: for two well-formed legs (positive finite quantities and prices)
whose quantities differ, the aggregation signals the quantity-mismatch
failure, which is distinct from the invalid-input failure, and produces
no result. -/
theorem quantity_mismatch_signalled (q1 p1 q2 p2 : ℚ) (hq1 : 0 < q1)
    (hp1 : 0 < p1) (hq2 : 0 < q2) (hp2 : 0 < p2) (hne : q1 ≠ q2)
    (bs ss : String) :
    profitLossCore (JSNum.num q1) (JSNum.num p1) bs (JSNum.num q2)
      (JSNum.num p2) ss = PLOutcome.quantityMismatch ∧
    profitLossCore (JSNum.num q1) (JSNum.num p1) bs (JSNum.num q2)
      (JSNum.num p2) ss ≠ PLOutcome.invalidInput ∧
    ∀ r, profitLossCore (JSNum.num q1) (JSNum.num p1) bs (JSNum.num q2)
      (JSNum.num p2) ss ≠ PLOutcome.result r := by
  have hcond : (JSNum.le (JSNum.num q1) (JSNum.num 0) ||
      JSNum.le (JSNum.num p1) (JSNum.num 0) ||
      JSNum.le (JSNum.num q2) (JSNum.num 0) ||
      JSNum.le (JSNum.num p2) (JSNum.num 0) ||
      JSNum.isNaN (JSNum.num q1) || JSNum.isNaN (JSNum.num p1)) = false := by
    simp [le_num_zero_false q1 hq1, le_num_zero_false p1 hp1,
      le_num_zero_false q2 hq2, le_num_zero_false p2 hp2, JSNum.isNaN]
  have heq : JSNum.eqb (JSNum.num q1) (JSNum.num q2) = false := by
    simp [JSNum.eqb, hne]
  have hmain : profitLossCore (JSNum.num q1) (JSNum.num p1) bs
      (JSNum.num q2) (JSNum.num p2) ss = PLOutcome.quantityMismatch := by
    unfold profitLossCore
    rw [if_neg (by rw [hcond]; exact Bool.false_ne_true),
      if_pos (by rw [heq]; simp)]
  refine ⟨hmain, by rw [hmain]; exact fun h => PLOutcome.noConfusion h,
    fun r => by rw [hmain]; exact fun h => PLOutcome.noConfusion h⟩

/-- Witness for C8: quantities 2 and 5 with prices 3 and 3. -/
theorem quantity_mismatch_signalled_witness :
    profitLossCore (JSNum.num 2) (JSNum.num 3) "INTRADAY" (JSNum.num 5)
      (JSNum.num 3) "INTRADAY" = PLOutcome.quantityMismatch :=
  (quantity_mismatch_signalled 2 3 5 3 (by norm_num) (by norm_num)
    (by norm_num) (by norm_num) (by norm_num) "INTRADAY" "INTRADAY").1

/-- C7 counterexample: a NaN sell price is not caught by the validation
(line 132 checks `isNaN` only for the buy-side quantity and price), so
the computation proceeds and produces a full result instead of the
invalid-input failure the claim requires. -/
theorem nonfinite_sellPrice_passes_validation :
    (calculateProfitLoss (JSNum.num 10) (JSNum.num 5) "INTRADAY"
      (JSNum.num 10) JSNum.nan "INTRADAY").isResult = true ∧
    calculateProfitLoss (JSNum.num 10) (JSNum.num 5) "INTRADAY"
      (JSNum.num 10) JSNum.nan "INTRADAY" ≠ PLOutcome.invalidInput := by
  exact ⟨by decide, by decide⟩

/-- A value a JavaScript `x <= 0` comparison reports as nonpositive: a
finite value ≤ 0, or negative infinity. -/
def jsNonPositive (x : JSNum) : Prop :=
  x = JSNum.ninf ∨ ∃ v : ℚ, x = JSNum.num v ∧ v ≤ 0

lemma le_zero_of_jsNonPositive (x : JSNum) (h : jsNonPositive x) :
    JSNum.le x (JSNum.num 0) = true := by
  rcases h with rfl | ⟨v, rfl, hv⟩
  · rfl
  · simp [JSNum.le, hv]

/-- C7 amended: whenever one of the four scalars is nonpositive under the
JavaScript comparison (a finite value ≤ 0 or −Infinity), or the buy-side
quantity or price is NaN, `calculateProfitLoss` signals the
invalid-input failure before any charge computation and produces no
result.  (A NaN sell price or a +Infinity value is not checked and the
computation proceeds.) -/
theorem invalid_input_validation (bq bp sq spr : JSNum) (bs ss : String)
    (h : jsNonPositive bq ∨ jsNonPositive bp ∨ jsNonPositive sq ∨
      jsNonPositive spr ∨ bq = JSNum.nan ∨ bp = JSNum.nan) :
    profitLossCore bq bp bs sq spr ss = PLOutcome.invalidInput := by
  have hcond : (JSNum.le bq (JSNum.num 0) || JSNum.le bp (JSNum.num 0) ||
      JSNum.le sq (JSNum.num 0) || JSNum.le spr (JSNum.num 0) ||
      JSNum.isNaN bq || JSNum.isNaN bp) = true := by
    rcases h with h | h | h | h | rfl | rfl
    · simp [le_zero_of_jsNonPositive bq h]
    · simp [le_zero_of_jsNonPositive bp h]
    · simp [le_zero_of_jsNonPositive sq h]
    · simp [le_zero_of_jsNonPositive spr h]
    · simp [JSNum.isNaN]
    · simp [JSNum.isNaN]
  unfold profitLossCore
  rw [if_pos hcond]

/-- Witness for the amended C7: a zero buy quantity. -/
theorem invalid_input_validation_witness :
    profitLossCore (JSNum.num 0) (JSNum.num 1) "INTRADAY" (JSNum.num 1)
      (JSNum.num 1) "INTRADAY" = PLOutcome.invalidInput :=
  invalid_input_validation (JSNum.num 0) (JSNum.num 1) (JSNum.num 1)
    (JSNum.num 1) "INTRADAY" "INTRADAY"
    (Or.inl (Or.inr ⟨0, rfl, le_refl 0⟩))

/-- C10: `calculateProfitLoss` overwrites the sell-side quantity and
segment with the buy-side values before reading the inputs, so its
outcome is independent of the caller-supplied sell quantity and sell
segment, and the quantity-mismatch branch is unreachable from this
entry point. -/
theorem sell_inputs_ignored (bq bp sq sq' spr : JSNum)
    (bs ss ss' : String) :
    calculateProfitLoss bq bp bs sq spr ss =
      calculateProfitLoss bq bp bs sq' spr ss' ∧
    calculateProfitLoss bq bp bs sq spr ss ≠ PLOutcome.quantityMismatch := by
  constructor
  · rfl
  · unfold calculateProfitLoss profitLossCore
    by_cases hc : (JSNum.le bq (JSNum.num 0) || JSNum.le bp (JSNum.num 0) ||
        JSNum.le bq (JSNum.num 0) || JSNum.le spr (JSNum.num 0) ||
        JSNum.isNaN bq || JSNum.isNaN bp) = true
    · rw [if_pos hc]
      exact fun h => PLOutcome.noConfusion h
    · rw [if_neg hc]
      have hnan : JSNum.isNaN bq = false := by
        rcases Bool.eq_false_or_eq_true (JSNum.isNaN bq) with h | h
        · exact absurd (by simp [h]) hc
        · exact h
      have heq : JSNum.eqb bq bq = true := by
        cases bq <;> simp_all [JSNum.eqb, JSNum.isNaN]
      rw [if_neg (by rw [heq]; simp)]
      exact fun h => PLOutcome.noConfusion h
